import Mathlib

/-!
A shallow embedding, in Lean, of the order-construction, classification,
guard and cross-order matching logic of the seaport-sdk repository
(file src/utils/pure.js together with the SDK facade in the same file),
with theorems checking the natural-language specification against it.

Conventions of the embedding:
* JavaScript numbers and BigNumber values are modelled as Nat (the code
  compares identifiers through BigNumber.toNumber, a plain numeric
  comparison).
* Addresses, tokens and byte strings are Lean String values; the strict
  JavaScript equality on them is String equality.
* A field that JavaScript may leave undefined is an Option; JavaScript
  truthiness of an optional plain number (undefined and 0 both falsy) is
  the function truthyNum below, while truthiness of the BigNumber-valued
  counter field (objects are truthy even at zero) is counterTruthy,
  that is presence of the field.
* Remote reads are modelled by a ChainState record of pure functions and
  code that throws returns Except String.
-/

deriving instance DecidableEq for Except

namespace Seaport

/-- One offer or consideration item, as assembled by the SDK
(fields itemType, token, identifierOrCriteria, startAmount, endAmount,
and, for consideration items only, recipient). -/
structure Item where
  itemType : Nat
  token : String
  identifierOrCriteria : Nat
  startAmount : Nat
  endAmount : Nat
  recipient : Option String
deriving Repr, DecidableEq

/-- The parameters record of an order (src/utils/pure.js, createOrder). -/
structure OrderParameters where
  offerer : String
  zone : String
  offer : List Item
  consideration : List Item
  orderType : Nat
  startTime : Nat
  endTime : Nat
  zoneHash : String
  salt : String
  conduitKey : String
deriving Repr, DecidableEq

/-- An order-shaped payload. A genuine Order carries numerator fields and
no counter; an OrderComponents payload carries a counter (in the source
an ethers BigNumber, stored by createOrder straight from getCounter).
Both travel through the same SDK entry points, which only look at the
fields present, so one structure with optional fields models both. -/
structure Order where
  parameters : OrderParameters
  signature : String
  numerator : Option Nat
  counter : Option Nat
deriving Repr, DecidableEq

/-- JavaScript truthiness of an optionally present plain-number field
(such as the numerator literal that createOrder writes): undefined
(none) and 0 are falsy, every other number is truthy. -/
def truthyNum : Option Nat → Bool
  | none => false
  | some n => n != 0

/-- JavaScript truthiness of the counter field. A present counter is an
ethers BigNumber object, and objects are truthy even when they hold the
value zero, so truthiness of the field is exactly its presence; the
numeric value carried inside is irrelevant to the guards. -/
def counterTruthy : Option Nat → Bool
  | none => false
  | some _ => true

/-- Helper used by the concrete examples below. -/
def mkItem (ty : Nat) (tok : String) (ident amt : Nat) : Item :=
  ⟨ty, tok, ident, amt, amt, none⟩

/-- Helper used by the concrete examples below. -/
def mkParams (offer consideration : List Item) : OrderParameters :=
  ⟨"0xofferer", "0xzone", offer, consideration, 0, 0, 100, "0xzh", "0xsalt", "0xck"⟩

/-- Helper used by the concrete examples below: an Order payload
(no counter, no numerator). -/
def mkOrder (offer consideration : List Item) : Order :=
  ⟨mkParams offer consideration, "0xsig", none, none⟩

/-- Helper used by the concrete examples below: an OrderComponents payload
(counter present). -/
def mkComponents (offer consideration : List Item) (counter : Nat) : Order :=
  ⟨mkParams offer consideration, "0xsig", none, some counter⟩

/-! ## Approval oracle (getApprovalStatus, src/utils/pure.js lines 55 to 106) -/

/-- The asset argument of getApprovalStatus (itemType, token, tokenId). -/
structure Asset where
  itemType : Nat
  token : String
  tokenId : Nat
deriving Repr, DecidableEq

/-- The remote reads getApprovalStatus performs, as pure functions:
erc20Allowance token owner spender, erc721IsApprovedForAll token owner
spender, erc721GetApproved token tokenId, erc1155IsApprovedForAll token
owner spender. -/
structure ChainState where
  erc20Allowance : String → String → String → Nat
  erc721IsApprovedForAll : String → String → String → Bool
  erc721GetApproved : String → Nat → String
  erc1155IsApprovedForAll : String → String → String → Bool

/-- Model of the JavaScript toLowerCase call on an address string:
lower every character. -/
def lowerAscii (s : String) : String := String.mk (s.data.map Char.toLower)

/-- MAX_APPROVAL from the source: 2 to the power 118. -/
def MAX_APPROVAL : Nat := 2 ^ 118

/-- The buffer subtracted from MAX_APPROVAL in the ERC20 branch. -/
def APPROVAL_BUFFER : Nat := 100000000000000000

/-- Embedding of getApprovalStatus. The source switch is written
with the labels (case 2 || 4) and (case 3 || 5); in JavaScript the
expression 2 || 4 evaluates to 2 and 3 || 5 evaluates to 3, so only the
literal values 2 and 3 are matched and the item types 4 and 5 fall
through to the default branch, which throws. The embedding reproduces
exactly that: cases 0, 1, 2, 3 and an error default. -/
def getApprovalStatus (walletAddress exchangeAddress : String) (asset : Asset)
    (chain : ChainState) : Except String Bool :=
  match asset.itemType with
  | 0 => .ok true
  | 1 => .ok (decide (MAX_APPROVAL - APPROVAL_BUFFER ≤
      chain.erc20Allowance asset.token walletAddress exchangeAddress))
  | 2 => .ok (chain.erc721IsApprovedForAll asset.token walletAddress exchangeAddress
      || lowerAscii (chain.erc721GetApproved asset.token asset.tokenId)
          == lowerAscii exchangeAddress)
  | 3 => .ok (chain.erc1155IsApprovedForAll asset.token walletAddress exchangeAddress)
  | t => .error ("Unexpected itemType: " ++ toString t)

/-! ## Item construction (getOfferOrConsiderationItem and the getItem facade) -/

/-- constants.AddressZero. -/
def AddressZero : String := "0x0000000000000000000000000000000000000000"

/-- Embedding of getOfferOrConsiderationItem. Every parameter of the
source function has a default (itemType 0, token AddressZero,
identifierOrCriteria 0, startAmount 1, endAmount 1); an omitted argument
is modelled as none and the default applied with getD. The recipient is
attached only when it is a string, so it stays optional. -/
def getOfferOrConsiderationItem (itemType : Option Nat) (token : Option String)
    (identifierOrCriteria startAmount endAmount : Option Nat)
    (recipient : Option String) : Item :=
  { itemType := itemType.getD 0
    token := token.getD AddressZero
    identifierOrCriteria := identifierOrCriteria.getD 0
    startAmount := startAmount.getD 1
    endAmount := endAmount.getD 1
    recipient := recipient }

/-- parseEther on a whole-number amount: scale by 10 to the power 18. -/
def parseEther (n : Nat) : Nat := n * 10 ^ 18

/-- Embedding of the SDK method getItemETH; an omitted endAmount defaults
to startAmount before both are scaled by parseEther. -/
def getItemETH (startAmount : Nat) (endAmount : Option Nat) (recipient : Option String) : Item :=
  getOfferOrConsiderationItem (some 0) (some AddressZero) (some 0)
    (some (parseEther startAmount)) (some (parseEther (endAmount.getD startAmount))) recipient

/-- Embedding of the SDK method getItem20. -/
def getItem20 (token : String) (startAmount : Nat) (endAmount : Option Nat)
    (recipient : Option String) : Item :=
  getOfferOrConsiderationItem (some 1) (some token) (some 0)
    (some (parseEther startAmount)) (some (parseEther (endAmount.getD startAmount))) recipient

/-- Embedding of the SDK method getItem721 (amounts fixed to 1). -/
def getItem721 (token : String) (identifierOrCriteria : Nat) (recipient : Option String) : Item :=
  getOfferOrConsiderationItem (some 2) (some token) (some identifierOrCriteria)
    (some 1) (some 1) recipient

/-- Embedding of the SDK method getItem721WithCriteria (amounts fixed to 1). -/
def getItem721WithCriteria (token : String) (identifierOrCriteria : Nat)
    (recipient : Option String) : Item :=
  getOfferOrConsiderationItem (some 4) (some token) (some identifierOrCriteria)
    (some 1) (some 1) recipient

/-- Embedding of the SDK method getItem1155; an omitted startAmount
defaults to 1 and an omitted endAmount defaults to the startAmount. -/
def getItem1155 (token : String) (identifierOrCriteria : Nat) (startAmount endAmount : Option Nat)
    (recipient : Option String) : Item :=
  let s := startAmount.getD 1
  getOfferOrConsiderationItem (some 3) (some token) (some identifierOrCriteria)
    (some s) (some (endAmount.getD s)) recipient

/-- Embedding of the SDK method getItem1155WithCriteria. -/
def getItem1155WithCriteria (token : String) (identifierOrCriteria : Nat)
    (startAmount endAmount : Option Nat) (recipient : Option String) : Item :=
  let s := startAmount.getD 1
  getOfferOrConsiderationItem (some 5) (some token) (some identifierOrCriteria)
    (some s) (some (endAmount.getD s)) recipient

/-- The asset argument of the SDK method getItem. Amount fields the
caller may omit are Option. -/
structure AssetSpec where
  itemType : Nat
  token : String
  startAmount : Option Nat
  endAmount : Option Nat
  tokenId : Nat
  recipient : Option String
  root : Nat
deriving Repr, DecidableEq

/-- Embedding of the SDK method getItem. The source switch has cases for
the six type codes 0 to 5 and no default case, so an unrecognized code
makes the method return undefined without any error: this is the .ok none
result. In the Native and ERC20 branches the source calls
parseEther(String(startAmount)); with an undefined startAmount that call
throws, which is the .error result. -/
def getItem (asset : AssetSpec) : Except String (Option Item) :=
  match asset.itemType with
  | 0 =>
    match asset.startAmount with
    | some s => .ok (some (getItemETH s asset.endAmount asset.recipient))
    | none => .error ("parseEther: invalid decimal value")
  | 1 =>
    match asset.startAmount with
    | some s => .ok (some (getItem20 asset.token s asset.endAmount asset.recipient))
    | none => .error ("parseEther: invalid decimal value")
  | 2 => .ok (some (getItem721 asset.token asset.tokenId asset.recipient))
  | 3 => .ok (some (getItem1155 asset.token asset.tokenId asset.startAmount
      asset.endAmount asset.recipient))
  | 4 => .ok (some (getItem721WithCriteria asset.token asset.root asset.recipient))
  | 5 => .ok (some (getItem1155WithCriteria asset.token asset.root asset.startAmount
      asset.endAmount asset.recipient))
  | _ => .ok none

/-! ## Cross-order matcher (getFulFillmentArrByOrder, lines 314 to 391) -/

/-- A raw fulfillment component, the pair (orderIndex, itemIndex). -/
abbrev FComp := Nat × Nat

/-- A raw fulfillment entry as built by the matcher: a list of offer-side
components and a list of consideration-side components. -/
abbrev FEntryArr := List FComp × List FComp

/-- The candidate test of the inner scan loops: the loop body skips an
item c (continue) when the token differs or, for a non-ERC20 offer item,
when the identifiers differ; a candidate is the negation. Note that the
itemType of c is never consulted. -/
def isCand (o c : Item) : Bool :=
  o.token == c.token && (o.itemType == 1 || o.identifierOrCriteria == c.identifierOrCriteria)

/-- One inner scan loop of the matcher: walk a consideration list cs with
running index j, push the entry ([oref], [(cside, j)]) on a candidate,
and break out of the loop after the push exactly when the offer item is
not of type 1 (the source line: if (oItemType !== 1) break). -/
def scanCons (o : Item) (oref : FComp) (cside : Nat) : List Item → Nat → List FEntryArr
  | [], _ => []
  | c :: rest, j =>
    if isCand o c then
      ([oref], [(cside, j)]) ::
        (if o.itemType == 1 then scanCons o oref cside rest (j + 1) else [])
    else scanCons o oref cside rest (j + 1)

/-- The body of one iteration of an outer offer loop: scan the first
consideration list, then, only when the offer item has type 1 (the
source line: if (oItemType !== 1) continue), scan the second one. -/
def processOffer (oside : Nat) (o : Item) (oI : Nat) (s1 : Nat) (cs1 : List Item)
    (s2 : Nat) (cs2 : List Item) : List FEntryArr :=
  scanCons o (oside, oI) s1 cs1 0 ++
    (if o.itemType == 1 then scanCons o (oside, oI) s2 cs2 0 else [])

/-- An outer offer loop: iterate processOffer over the offer items with a
running index. -/
def loopOffers (oside : Nat) (s1 : Nat) (cs1 : List Item) (s2 : Nat) (cs2 : List Item) :
    List Item → Nat → List FEntryArr
  | [], _ => []
  | o :: rest, oI =>
    processOffer oside o oI s1 cs1 s2 cs2 ++ loopOffers oside s1 cs1 s2 cs2 rest (oI + 1)

/-- Embedding of getFulFillmentArrByOrder: the loop over the offer items
of the first order (scanning the consideration list of the second order,
then its own), followed by the loop over the offer items of the second
order (scanning the consideration list of the first order, then its
own). -/
def getFulFillmentArrByOrder (order orderToMatch : Order) : List FEntryArr :=
  loopOffers 0 1 orderToMatch.parameters.consideration 0 order.parameters.consideration
    order.parameters.offer 0
  ++ loopOffers 1 0 order.parameters.consideration 1 orderToMatch.parameters.consideration
    orderToMatch.parameters.offer 0

/-! ## Fulfillment component encoder (toFulfillmentComponents, toFulfillment, getFulfillment) -/

/-- The wire-level component record. -/
structure FulfillmentComponent where
  orderIndex : Nat
  itemIndex : Nat
deriving Repr, DecidableEq

/-- The wire-level fulfillment record. -/
structure Fulfillment where
  offerComponents : List FulfillmentComponent
  considerationComponents : List FulfillmentComponent
deriving Repr, DecidableEq

/-- Embedding of toFulfillmentComponents. -/
def toFulfillmentComponents (arr : List FComp) : List FulfillmentComponent :=
  arr.map (fun p => ⟨p.1, p.2⟩)

/-- Embedding of toFulfillment. -/
def toFulfillment (offerArr considerationsArr : List FComp) : Fulfillment :=
  ⟨toFulfillmentComponents offerArr, toFulfillmentComponents considerationsArr⟩

/-- Embedding of getFulfillment applied to a computed entry list. -/
def getFulfillment (arr : List FEntryArr) : List Fulfillment :=
  arr.map (fun e => toFulfillment e.1 e.2)

/-! ## matchOrders (SDK facade, lines 763 to 780) -/

/-- The settlement call produced by matchOrders: the order pair (the
first possibly extended by a gap item) and the encoded fulfillments. -/
structure MatchCall where
  orders : List Order
  fulfillments : List Fulfillment
deriving Repr, DecidableEq

/-- Embedding of the SDK method matchOrders. With a gap asset the source
pushes the literal component [0, 1] onto fArr[1][1] (the consideration
side of the second entry) and pushes the gap item onto the consideration
list of the first order; reading fArr[1] with fewer than two entries
throws. -/
def matchOrders (order orderToMatch : Order) (gapAsset : Option Item) :
    Except String MatchCall :=
  let fArr := getFulFillmentArrByOrder order orderToMatch
  match gapAsset with
  | none => .ok ⟨[order, orderToMatch], getFulfillment fArr⟩
  | some gap =>
    match fArr with
    | e0 :: e1 :: rest =>
      let fArr2 := e0 :: (e1.1, e1.2 ++ [((0 : Nat), (1 : Nat))]) :: rest
      let orderA : Order :=
        { order with parameters :=
          { order.parameters with
            consideration := order.parameters.consideration ++ [gap] } }
      .ok ⟨[orderA, orderToMatch], getFulfillment fArr2⟩
    | _ => .error ("TypeError: cannot read 1 of undefined")

/-! ## Fulfillment strategy selector (fulfillOrder, lines 626 to 705) -/

/-- The eligibility computation the source performs inline on a
single-offer-item order: when the offer item has type 1 the first
consideration item must have type 2 or 3 and no later one may have type
0, 2 or 3; otherwise the first consideration item must have type 0 or 1
and every later one must repeat exactly that type. -/
def isBasicCheck (o0 c0 : Item) (crest : List Item) : Bool :=
  if o0.itemType == 1 then
    (c0.itemType == 2 || c0.itemType == 3) &&
      crest.all (fun i => !(i.itemType == 0 || i.itemType == 2 || i.itemType == 3))
  else
    (c0.itemType == 0 || c0.itemType == 1) &&
      crest.all (fun i => i.itemType == c0.itemType)

/-- The route computation the source performs once an order is basic:
offer type 1 gives route 4 or 5 by the first consideration type, offer
type 2 gives route 0 or 2, and every other offer type gives route 1 or
3. -/
def basicRoute (o0 c0 : Item) : Nat :=
  if o0.itemType == 1 then (if c0.itemType == 2 then 4 else 5)
  else if o0.itemType == 2 then (if c0.itemType == 0 then 0 else 2)
  else (if c0.itemType == 0 then 1 else 3)

/-- The basic-order parameter record built by getBasicOrderParameters. -/
structure BasicOrderParameters where
  offerer : String
  zone : String
  basicOrderType : Nat
  offerToken : String
  offerIdentifier : Nat
  offerAmount : Nat
  considerationToken : String
  considerationIdentifier : Nat
  considerationAmount : Nat
  startTime : Nat
  endTime : Nat
  zoneHash : String
  salt : String
  totalOriginalAdditionalRecipients : Nat
  signature : String
  offererConduitKey : String
  fulfillerConduitKey : String
  additionalRecipients : List (Nat × Option String)
deriving Repr, DecidableEq

/-- Strip a leading 0x marker from a hex string. -/
def dropHexMark (s : String) : String :=
  if s.startsWith "0x" then s.drop 2 else s

/-- Pad a string on the left with the character 0 up to 64 characters. -/
def padStart64 (s : String) : String :=
  if s.length < 64 then String.mk (List.replicate (64 - s.length) '0') ++ s else s

/-- Model of toKey (toHex with 32 bytes) on the inputs the SDK produces:
strip the 0x marker and left-pad the digits to 64 characters. The
numeric argument 0 of the source arrives here as the string 0. -/
def toKey (s : String) : String := "0x" ++ padStart64 (dropHexMark s)

/-- A zero item standing for the out-of-range read offer[0] or
consideration[0] that the source performs on an empty list; every use of
getBasicOrderParameters in this development is under nonemptiness of
both lists. -/
def defaultItem : Item := ⟨0, "", 0, 0, 0, none⟩

/-- Embedding of getBasicOrderParameters: route and order in, packed
record out, with the tail of the consideration list flattened to
(amount, recipient) pairs and the tips appended. -/
def getBasicOrderParameters (basicOrderRouteType : Nat) (order : Order)
    (fulfillerConduitKey : Option String) (tips : List (Nat × Option String)) :
    BasicOrderParameters :=
  let o0 := order.parameters.offer.headD defaultItem
  let c0 := order.parameters.consideration.headD defaultItem
  { offerer := order.parameters.offerer
    zone := order.parameters.zone
    basicOrderType := order.parameters.orderType + 4 * basicOrderRouteType
    offerToken := o0.token
    offerIdentifier := o0.identifierOrCriteria
    offerAmount := o0.endAmount
    considerationToken := c0.token
    considerationIdentifier := c0.identifierOrCriteria
    considerationAmount := c0.endAmount
    startTime := order.parameters.startTime
    endTime := order.parameters.endTime
    zoneHash := order.parameters.zoneHash
    salt := order.parameters.salt
    totalOriginalAdditionalRecipients := order.parameters.consideration.length - 1
    signature := order.signature
    offererConduitKey := order.parameters.conduitKey
    fulfillerConduitKey := toKey (fulfillerConduitKey.getD "0")
    additionalRecipients :=
      (order.parameters.consideration.drop 1).map (fun c => (c.endAmount, c.recipient)) ++ tips }

/-- The settlement entry point chosen by the SDK method fulfillOrder,
with the arguments it would submit. -/
inductive SeaportCall where
  | fulfillAdvancedOrder (order : Order) (criteriaResolverCount : Nat) (value : Nat)
  | fulfillBasicOrder (params : BasicOrderParameters) (value : Nat)
  | fulfillOrderCall (order : Order) (value : Nat)
deriving Repr, DecidableEq

/-- Embedding of the SDK method fulfillOrder. In order: the truthiness
guard on the counter field (present BigNumber counters, zero included,
are truthy); the advanced path when the numerator is truthy or criteria
resolvers are supplied; the read of consideration[0].itemType (a
TypeError on an empty list); then the inline eligibility check, which is
only reached with exactly one offer item, and the choice between the
basic and the generic entry point. -/
def fulfillOrder (order : Order) (value : Nat) (criteriaResolverCount : Nat) :
    Except String SeaportCall :=
  if counterTruthy order.counter then .error ("Not orderComponents, give me order")
  else if truthyNum order.numerator || decide (0 < criteriaResolverCount) then
    .ok (.fulfillAdvancedOrder order criteriaResolverCount value)
  else
    match order.parameters.consideration with
    | [] => .error ("TypeError: cannot read itemType of undefined")
    | c0 :: crest =>
      match order.parameters.offer with
      | [o0] =>
        if isBasicCheck o0 c0 crest then
          .ok (.fulfillBasicOrder (getBasicOrderParameters (basicRoute o0 c0) order none []) value)
        else .ok (.fulfillOrderCall order value)
      | _ => .ok (.fulfillOrderCall order value)

/-! ## cancelOrders and validateOrders (SDK facade, lines 716 to 748) -/

/-- Embedding of the SDK method cancelOrders on an array argument: the
source throws when any element has a falsy counter, that is an absent
one (a present BigNumber counter is truthy even at zero), otherwise it
submits cancel on the array. -/
def cancelOrders (orderComponentsArr : List Order) : Except String (List Order) :=
  if orderComponentsArr.any (fun oc => !counterTruthy oc.counter) then
    .error ("Not order, Give me orderComponents")
  else .ok orderComponentsArr

/-- Embedding of the SDK method validateOrders on an array argument: the
source throws when any element has a truthy counter (any present
BigNumber counter, zero included), otherwise it submits validate on the
array. -/
def validateOrders (orders : List Order) : Except String (List Order) :=
  if orders.any (fun o => counterTruthy o.counter) then
    .error ("Not orderComponents, give me order")
  else .ok orders

/-! ## Statement-side descriptions

The definitions below are not translations of the source; they restate
scan behaviour in the words of the (amended) specification sentences, so
that the theorems can compare the embedded code against them. -/

/-- The candidate positions of an offer item inside a consideration
list, starting the index count at j. -/
def candIdxFrom (o : Item) : List Item → Nat → List Nat
  | [], _ => []
  | c :: rest, j =>
    if isCand o c then j :: candIdxFrom o rest (j + 1) else candIdxFrom o rest (j + 1)

/-- The candidate positions of an offer item inside a consideration
list. -/
def candIdx (o : Item) (cs : List Item) : List Nat := candIdxFrom o cs 0

/-- The entry the matcher emits for offer item oI of order oside matched
with consideration item k of order cside. -/
def entryFor (oside oI cside k : Nat) : FEntryArr := ([(oside, oI)], [(cside, k)])

/-- Description of one scan in the words of the amended specification: a
type-1 (ERC20) offer item emits an entry for every candidate position,
any other offer item emits an entry only for the first candidate
position. -/
def emittedMatches (o : Item) (oside oI cside : Nat) (cs : List Item) : List FEntryArr :=
  if o.itemType == 1 then (candIdx o cs).map (entryFor oside oI cside)
  else ((candIdx o cs).take 1).map (entryFor oside oI cside)

/-- Description of the whole matcher output in the words of the amended
specification: per offer item of the first order, its scan of the second
orders consideration list followed (only for type-1 items) by its scan
of the own consideration list; then the same for the second order with
the two consideration lists swapped. -/
def matcherInterleavedShape (a b : Order) : List FEntryArr :=
  ((a.parameters.offer.enum).map (fun p =>
      emittedMatches p.2 0 p.1 1 b.parameters.consideration ++
        (if p.2.itemType == 1 then
          emittedMatches p.2 0 p.1 0 a.parameters.consideration else []))).flatten
  ++ ((b.parameters.offer.enum).map (fun p =>
      emittedMatches p.2 1 p.1 0 a.parameters.consideration ++
        (if p.2.itemType == 1 then
          emittedMatches p.2 1 p.1 1 b.parameters.consideration else []))).flatten

/-- Number of matcher entries whose offer-side reference list is exactly
the singleton r. -/
def offerRefCount (fArr : List FEntryArr) (r : FComp) : Nat :=
  fArr.countP (fun e => decide (e.1 = [r]))

/-- The route table in the words of the specification: exactly six
(offer type, first consideration type) pairs determine a route. -/
def specRouteTable (offerType cnType : Nat) : Option Nat :=
  if offerType = 2 ∧ cnType = 0 then some 0
  else if offerType = 3 ∧ cnType = 0 then some 1
  else if offerType = 2 ∧ cnType = 1 then some 2
  else if offerType = 3 ∧ cnType = 1 then some 3
  else if offerType = 1 ∧ cnType = 2 then some 4
  else if offerType = 1 ∧ cnType = 3 then some 5
  else none

/-! ## Lemmas about the scan loops -/

lemma isCand_eq_true_iff (o c : Item) :
    isCand o c = true ↔
      (o.token = c.token ∧ (o.itemType = 1 ∨ o.identifierOrCriteria = c.identifierOrCriteria)) := by
  simp [isCand]

lemma scanCons_eq_fung (o : Item) (r : FComp) (s : Nat) (h : o.itemType = 1) :
    ∀ (cs : List Item) (j : Nat),
      scanCons o r s cs j = (candIdxFrom o cs j).map (fun k => ([r], [(s, k)])) := by
  intro cs
  induction cs with
  | nil => intro j; rfl
  | cons c rest ih =>
    intro j
    by_cases hc : isCand o c = true
    · simp [scanCons, candIdxFrom, hc, h, ih]
    · simp [scanCons, candIdxFrom, hc, ih]

lemma scanCons_eq_nonfung (o : Item) (r : FComp) (s : Nat) (h : ¬ o.itemType = 1) :
    ∀ (cs : List Item) (j : Nat),
      scanCons o r s cs j = ((candIdxFrom o cs j).take 1).map (fun k => ([r], [(s, k)])) := by
  intro cs
  induction cs with
  | nil => intro j; rfl
  | cons c rest ih =>
    intro j
    by_cases hc : isCand o c = true
    · simp [scanCons, candIdxFrom, hc, h]
    · simp [scanCons, candIdxFrom, hc, ih]

lemma candIdxFrom_length (o : Item) :
    ∀ (cs : List Item) (j : Nat),
      (candIdxFrom o cs j).length = cs.countP (fun c => isCand o c) := by
  intro cs
  induction cs with
  | nil => intro j; rfl
  | cons c rest ih =>
    intro j
    by_cases hc : isCand o c = true
    · simp [candIdxFrom, hc, ih, List.countP_cons]
    · simp [candIdxFrom, hc, ih, List.countP_cons]

lemma offerSide_of_mem_scanCons (o : Item) (r : FComp) (s : Nat) (cs : List Item) (j : Nat)
    (e : FEntryArr) (he : e ∈ scanCons o r s cs j) : e.1 = [r] := by
  by_cases h : o.itemType = 1
  · rw [scanCons_eq_fung o r s h] at he
    obtain ⟨k, _, hk⟩ := List.mem_map.mp he
    simp [← hk]
  · rw [scanCons_eq_nonfung o r s h] at he
    obtain ⟨k, _, hk⟩ := List.mem_map.mp he
    simp [← hk]

lemma offerSide_of_mem_processOffer (os : Nat) (o : Item) (oI s1 s2 : Nat)
    (cs1 cs2 : List Item) (e : FEntryArr)
    (he : e ∈ processOffer os o oI s1 cs1 s2 cs2) : e.1 = [((os : Nat), oI)] := by
  rw [processOffer, List.mem_append] at he
  rcases he with h1 | h2
  · exact offerSide_of_mem_scanCons o (os, oI) s1 cs1 0 e h1
  · by_cases h : (o.itemType == 1) = true
    · rw [if_pos h] at h2
      exact offerSide_of_mem_scanCons o (os, oI) s2 cs2 0 e h2
    · rw [if_neg h] at h2
      simp at h2

lemma offerSide_of_mem_loopOffers (os s1 s2 : Nat) (cs1 cs2 : List Item) :
    ∀ (items : List Item) (i0 : Nat) (e : FEntryArr),
      e ∈ loopOffers os s1 cs1 s2 cs2 items i0 →
        ∃ k, i0 ≤ k ∧ e.1 = [((os : Nat), k)] := by
  intro items
  induction items with
  | nil => intro i0 e he; simp [loopOffers] at he
  | cons o rest ih =>
    intro i0 e he
    rw [loopOffers, List.mem_append] at he
    rcases he with h1 | h2
    · exact ⟨i0, le_refl i0, offerSide_of_mem_processOffer os o i0 s1 s2 cs1 cs2 e h1⟩
    · obtain ⟨k, hk, hk2⟩ := ih (i0 + 1) e h2
      exact ⟨k, by omega, hk2⟩

lemma processOffer_length_nonfung (os : Nat) (o : Item) (oI s1 s2 : Nat)
    (cs1 cs2 : List Item) (h : ¬ o.itemType = 1) :
    (processOffer os o oI s1 cs1 s2 cs2).length ≤ 1 := by
  rw [processOffer]
  have h2 : (o.itemType == 1) = false := by simp [h]
  rw [if_neg (by simp [h2])]
  rw [scanCons_eq_nonfung o (os, oI) s1 h]
  simp

lemma processOffer_length_fung (os : Nat) (o : Item) (oI s1 s2 : Nat)
    (cs1 cs2 : List Item) (h : o.itemType = 1) :
    (processOffer os o oI s1 cs1 s2 cs2).length =
      cs1.countP (fun c => isCand o c) + cs2.countP (fun c => isCand o c) := by
  rw [processOffer]
  rw [if_pos (by simp [h])]
  rw [scanCons_eq_fung o (os, oI) s1 h, scanCons_eq_fung o (os, oI) s2 h]
  simp [candIdxFrom_length]

lemma offerRefCount_processOffer_self (os : Nat) (o : Item) (oI s1 s2 : Nat)
    (cs1 cs2 : List Item) :
    offerRefCount (processOffer os o oI s1 cs1 s2 cs2) (os, oI) =
      (processOffer os o oI s1 cs1 s2 cs2).length := by
  rw [offerRefCount, List.countP_eq_length]
  intro e he
  simp [offerSide_of_mem_processOffer os o oI s1 s2 cs1 cs2 e he]

lemma offerRefCount_processOffer_ne (os : Nat) (o : Item) (oI s1 s2 : Nat)
    (cs1 cs2 : List Item) (r : FComp) (h : r ≠ (os, oI)) :
    offerRefCount (processOffer os o oI s1 cs1 s2 cs2) r = 0 := by
  rw [offerRefCount, List.countP_eq_zero]
  intro e he
  have h2 := offerSide_of_mem_processOffer os o oI s1 s2 cs1 cs2 e he
  simp [h2]
  intro h3
  exact absurd h3.symm h

lemma offerRefCount_loopOffers (os s1 s2 : Nat) (cs1 cs2 : List Item) :
    ∀ (items : List Item) (i0 k : Nat),
      offerRefCount (loopOffers os s1 cs1 s2 cs2 items i0) (os, i0 + k) =
        (match items.get? k with
          | some o => (processOffer os o (i0 + k) s1 cs1 s2 cs2).length
          | none => 0) := by
  intro items
  induction items with
  | nil => intro i0 k; simp [loopOffers, offerRefCount]
  | cons o rest ih =>
    intro i0 k
    rw [loopOffers, offerRefCount, List.countP_append]
    cases k with
    | zero =>
      have h1 := offerRefCount_processOffer_self os o i0 s1 s2 cs1 cs2
      rw [offerRefCount] at h1
      have h2 : (loopOffers os s1 cs1 s2 cs2 rest (i0 + 1)).countP
          (fun e => decide (e.1 = [((os : Nat), i0)])) = 0 := by
        rw [List.countP_eq_zero]
        intro e he
        obtain ⟨k2, hk2, he2⟩ := offerSide_of_mem_loopOffers os s1 s2 cs1 cs2 rest (i0 + 1) e he
        simp only [he2, decide_eq_true_eq, List.cons.injEq, and_true, Prod.mk.injEq]
        intro hcon
        omega
      simp only [Nat.add_zero]
      rw [h1, h2]
      simp
    | succ k2 =>
      have h1 : (processOffer os o i0 s1 cs1 s2 cs2).countP
          (fun e => decide (e.1 = [((os : Nat), i0 + (k2 + 1))])) = 0 := by
        have hne := offerRefCount_processOffer_ne os o i0 s1 s2 cs1 cs2 (os, i0 + (k2 + 1))
          (by
            intro hp
            have hsnd : i0 + (k2 + 1) = i0 := congrArg Prod.snd hp
            omega)
        rw [offerRefCount] at hne
        exact hne
      have h2 := ih (i0 + 1) k2
      rw [offerRefCount] at h2
      have harith : i0 + (k2 + 1) = (i0 + 1) + k2 := by omega
      rw [h1]
      rw [harith, h2]
      simp

lemma offerRefCount_loopOffers_otherSide (os s1 s2 : Nat) (cs1 cs2 : List Item)
    (items : List Item) (i0 : Nat) (os2 i : Nat) (h : os2 ≠ os) :
    offerRefCount (loopOffers os s1 cs1 s2 cs2 items i0) (os2, i) = 0 := by
  rw [offerRefCount, List.countP_eq_zero]
  intro e he
  obtain ⟨k, _, he2⟩ := offerSide_of_mem_loopOffers os s1 s2 cs1 cs2 items i0 e he
  simp [he2]
  intro h2
  exact absurd h2.symm h

lemma processOffer_eq_emitted (os : Nat) (o : Item) (oI s1 s2 : Nat) (cs1 cs2 : List Item) :
    processOffer os o oI s1 cs1 s2 cs2 =
      emittedMatches o os oI s1 cs1 ++
        (if o.itemType == 1 then emittedMatches o os oI s2 cs2 else []) := by
  by_cases h : o.itemType = 1
  · rw [processOffer, emittedMatches, emittedMatches, candIdx, candIdx]
    rw [if_pos (by simp [h]), if_pos (by simp [h]), if_pos (by simp [h]), if_pos (by simp [h])]
    rw [scanCons_eq_fung o (os, oI) s1 h, scanCons_eq_fung o (os, oI) s2 h]
    rfl
  · have h2 : (o.itemType == 1) = false := by simp [h]
    rw [processOffer, emittedMatches, candIdx]
    rw [if_neg (by simp [h2]), if_neg (by simp [h2]), if_neg (by simp [h2])]
    rw [scanCons_eq_nonfung o (os, oI) s1 h]
    simp
    rfl

lemma loopOffers_eq_shape (os s1 s2 : Nat) (cs1 cs2 : List Item) :
    ∀ (items : List Item) (i0 : Nat),
      loopOffers os s1 cs1 s2 cs2 items i0 =
        ((items.enumFrom i0).map (fun p =>
          emittedMatches p.2 os p.1 s1 cs1 ++
            (if p.2.itemType == 1 then emittedMatches p.2 os p.1 s2 cs2 else []))).flatten := by
  intro items
  induction items with
  | nil => intro i0; rfl
  | cons o rest ih =>
    intro i0
    rw [loopOffers, List.enumFrom]
    simp only [List.map_cons, List.flatten_cons]
    rw [processOffer_eq_emitted, ih]

/-! ## Congruence of the matcher in the consideration item types -/

/-- Two items agreeing on the only two fields the candidate test reads. -/
def sameTokenId (c c2 : Item) : Prop :=
  c.token = c2.token ∧ c.identifierOrCriteria = c2.identifierOrCriteria

lemma isCand_congr (o c c2 : Item) (h : sameTokenId c c2) : isCand o c2 = isCand o c := by
  rcases h with ⟨h1, h2⟩
  simp [isCand, h1, h2]

lemma scanCons_congr (o : Item) (r : FComp) (s : Nat) :
    ∀ (cs cs2 : List Item), List.Forall₂ sameTokenId cs cs2 →
      ∀ j, scanCons o r s cs2 j = scanCons o r s cs j := by
  intro cs cs2 hf
  induction hf with
  | nil => intro j; rfl
  | @cons c c2 rest rest2 hcc _ ih =>
    intro j
    rw [scanCons, scanCons, isCand_congr o c c2 hcc]
    by_cases hc : isCand o c = true
    · rw [if_pos hc, if_pos hc]
      by_cases hft : (o.itemType == 1) = true
      · rw [if_pos hft, if_pos hft, ih]
      · rw [if_neg hft, if_neg hft]
    · rw [if_neg hc, if_neg hc, ih]

lemma loopOffers_congr (os s1 s2 : Nat) (cs1 cs1b cs2 cs2b : List Item)
    (h1 : List.Forall₂ sameTokenId cs1 cs1b) (h2 : List.Forall₂ sameTokenId cs2 cs2b) :
    ∀ (items : List Item) (i0 : Nat),
      loopOffers os s1 cs1b s2 cs2b items i0 = loopOffers os s1 cs1 s2 cs2 items i0 := by
  intro items
  induction items with
  | nil => intro i0; rfl
  | cons o rest ih =>
    intro i0
    rw [loopOffers, loopOffers, processOffer, processOffer,
      scanCons_congr o (os, i0) s1 cs1 cs1b h1 0,
      scanCons_congr o (os, i0) s2 cs2 cs2b h2 0, ih]

/-! ## Concrete items and orders used by the witnesses and counterexamples -/

/-- An ERC20 offer item on token 0xU. -/
def iERC20U : Item := mkItem 1 "0xU" 0 100

/-- A consideration item on token 0xU. -/
def iConsU0 : Item := ⟨1, "0xU", 0, 60, 60, some "0xr1"⟩

/-- A second consideration item on token 0xU. -/
def iConsU1 : Item := ⟨1, "0xU", 0, 40, 40, some "0xr2"⟩

/-- An ERC721 offer item, token 0xT, identifier 5. -/
def i721T5 : Item := mkItem 2 "0xT" 5 1

/-- A consideration item on token 0xT, identifier 5, type 2. -/
def iConsT5a : Item := ⟨2, "0xT", 5, 1, 1, some "0xr3"⟩

/-- A consideration item on token 0xT, identifier 5, but with item type 3. -/
def iConsT5b : Item := ⟨3, "0xT", 5, 1, 1, some "0xr4"⟩

/-- Order offering one ERC20 item, empty consideration. -/
def oFungA : Order := mkOrder [iERC20U] []

/-- Order with no offer items and two consideration items on token 0xU. -/
def oTwoU : Order := mkOrder [] [iConsU0, iConsU1]

/-- Order offering one ERC721 item, empty consideration. -/
def o721A : Order := mkOrder [i721T5] []

/-- Order with no offer items and two consideration items on (0xT, 5). -/
def oTwoT5 : Order := mkOrder [] [iConsT5a, iConsT5b]

/-- Order offering the ERC721 item (0xT, 5) and also asking an item with
the same token and identifier in its own consideration list. -/
def oSelfMatch : Order := mkOrder [i721T5] [iConsT5a]

/-- Order with no items at all. -/
def oEmpty : Order := mkOrder [] []

/-! ## Claim C1 -/

/-- C1 counterexample. The claim states that for an ERC20 offer item the
scan stops after the first match while for a non-ERC20 offer item it
continues past the first match. The code does the opposite: an ERC20
offer item scanned against two same-token consideration items yields two
entries, and an ERC721 offer item scanned against two consideration
items of equal token and identifier yields only the first entry even
though the second is also a candidate. -/
theorem spec2proof_C1_counterexample :
    getFulFillmentArrByOrder oFungA oTwoU =
      [([(0, 0)], [(1, 0)]), ([(0, 0)], [(1, 1)])] ∧
    ¬ offerRefCount (getFulFillmentArrByOrder oFungA oTwoU) (0, 0) ≤ 1 ∧
    getFulFillmentArrByOrder o721A oTwoT5 = [([(0, 0)], [(1, 0)])] ∧
    isCand i721T5 iConsT5b = true ∧
    ¬ (([((0 : Nat), (0 : Nat))], [((1 : Nat), (1 : Nat))]) ∈
        getFulFillmentArrByOrder o721A oTwoT5) := by
  decide

/-- C1 amended: a consideration item is a candidate match iff it has the
same token address and (the offer item type is 1, matching solely on
token, or the identifiers are numerically equal); and the scan stops
after the first match exactly when the offer item is NOT ERC20, while
for an ERC20 offer item the scan continues past the first match and
emits an entry for every candidate. -/
theorem spec2proof_C1 (o c : Item) (r : FComp) (s : Nat) (cs : List Item) :
    (isCand o c = true ↔
      (o.token = c.token ∧
        (o.itemType = 1 ∨ o.identifierOrCriteria = c.identifierOrCriteria))) ∧
    (¬ o.itemType = 1 →
      scanCons o r s cs 0 = ((candIdx o cs).take 1).map (fun k => ([r], [(s, k)]))) ∧
    (o.itemType = 1 →
      scanCons o r s cs 0 = (candIdx o cs).map (fun k => ([r], [(s, k)]))) :=
  ⟨isCand_eq_true_iff o c,
   fun h => scanCons_eq_nonfung o r s h cs 0,
   fun h => scanCons_eq_fung o r s h cs 0⟩

/-- C1 witness: the amended scan rule evaluated on the ERC20 offer item
and a two-candidate consideration list. -/
theorem spec2proof_C1_witness :
    scanCons iERC20U ((0 : Nat), (0 : Nat)) 1 [iConsU0, iConsU1] 0 =
      (candIdx iERC20U [iConsU0, iConsU1]).map
        (fun k => ([((0 : Nat), (0 : Nat))], [((1 : Nat), k)])) :=
  (spec2proof_C1 iERC20U iConsU0 (0, 0) 1 [iConsU0, iConsU1]).2.2 rfl

/-! ## Claim C6 -/

/-- C6 counterexample. The claim states that every offer item, fungible
or not, is also scanned against the own consideration list of its order.
In the code a non-ERC20 offer item skips that scan entirely: here the
ERC721 offer item of the first order has a candidate inside the same
order, yet the matcher output is empty. -/
theorem spec2proof_C6_counterexample :
    getFulFillmentArrByOrder oSelfMatch oEmpty = [] ∧
    isCand i721T5 iConsT5a = true ∧
    ¬ (([((0 : Nat), (0 : Nat))], [((0 : Nat), (0 : Nat))]) ∈
        getFulFillmentArrByOrder oSelfMatch oEmpty) := by
  decide

/-- C6 amended: the matcher output is, per offer item of the first order
in index order, its scan of the second orders consideration list
followed, only when the item has type 1, by its scan of the own
consideration list; then the same for the second order with the lists
swapped. The four scans are interleaved per offer item, not concatenated
as four complete passes, and a non-ERC20 offer item is never scanned
against the consideration list of its own order. -/
theorem spec2proof_C6 (a b : Order) :
    getFulFillmentArrByOrder a b = matcherInterleavedShape a b := by
  rw [getFulFillmentArrByOrder, matcherInterleavedShape,
    loopOffers_eq_shape 0 1 0 b.parameters.consideration a.parameters.consideration
      a.parameters.offer 0,
    loopOffers_eq_shape 1 0 1 a.parameters.consideration b.parameters.consideration
      b.parameters.offer 0]
  rfl

/-! ## Claim C5 -/

/-- C5 counterexample. The claim states that every offer item index
appears in exactly one entry of the matcher output. An ERC721 offer item
with no candidate consideration item appears in no entry at all, and an
ERC20 offer item with two candidates appears in two entries. -/
theorem spec2proof_C5_counterexample :
    (mkOrder [i721T5] []).parameters.offer.length = 1 ∧
    getFulFillmentArrByOrder (mkOrder [i721T5] []) oEmpty = [] ∧
    offerRefCount (getFulFillmentArrByOrder (mkOrder [i721T5] []) oEmpty) (0, 0) = 0 ∧
    offerRefCount (getFulFillmentArrByOrder oFungA oTwoU) (0, 0) = 2 := by
  decide

/-- C5 amended: an offer item of either order appears in at most one
entry when its type is not 1 (possibly in none, when it has no
candidate), and when its type is 1 it appears in exactly one entry per
candidate across the two consideration lists it scans. -/
theorem spec2proof_C5 (a b : Order) (i i2 : Nat) (o o2 : Item)
    (h : a.parameters.offer.get? i = some o)
    (h2 : b.parameters.offer.get? i2 = some o2) :
    (¬ o.itemType = 1 → offerRefCount (getFulFillmentArrByOrder a b) (0, i) ≤ 1) ∧
    (o.itemType = 1 → offerRefCount (getFulFillmentArrByOrder a b) (0, i) =
        b.parameters.consideration.countP (fun c => isCand o c)
          + a.parameters.consideration.countP (fun c => isCand o c)) ∧
    (¬ o2.itemType = 1 → offerRefCount (getFulFillmentArrByOrder a b) (1, i2) ≤ 1) ∧
    (o2.itemType = 1 → offerRefCount (getFulFillmentArrByOrder a b) (1, i2) =
        a.parameters.consideration.countP (fun c => isCand o2 c)
          + b.parameters.consideration.countP (fun c => isCand o2 c)) := by
  have hA : offerRefCount (getFulFillmentArrByOrder a b) (0, i) =
      (processOffer 0 o i 1 b.parameters.consideration 0 a.parameters.consideration).length := by
    rw [getFulFillmentArrByOrder, offerRefCount, List.countP_append]
    have hB0 := offerRefCount_loopOffers_otherSide 1 0 1 a.parameters.consideration
      b.parameters.consideration b.parameters.offer 0 0 i (by omega)
    have hA1 := offerRefCount_loopOffers 0 1 0 b.parameters.consideration
      a.parameters.consideration a.parameters.offer 0 i
    rw [offerRefCount] at hB0 hA1
    simp only [Nat.zero_add] at hA1
    rw [hA1, hB0, h]
    simp
  have hB : offerRefCount (getFulFillmentArrByOrder a b) (1, i2) =
      (processOffer 1 o2 i2 0 a.parameters.consideration 1 b.parameters.consideration).length := by
    rw [getFulFillmentArrByOrder, offerRefCount, List.countP_append]
    have hA0 := offerRefCount_loopOffers_otherSide 0 1 0 b.parameters.consideration
      a.parameters.consideration a.parameters.offer 0 1 i2 (by omega)
    have hB1 := offerRefCount_loopOffers 1 0 1 a.parameters.consideration
      b.parameters.consideration b.parameters.offer 0 i2
    rw [offerRefCount] at hA0 hB1
    simp only [Nat.zero_add] at hB1
    rw [hA0, hB1, h2]
    simp
  refine ⟨?_, ?_, ?_, ?_⟩
  · intro hne
    rw [hA]
    exact processOffer_length_nonfung 0 o i 1 0 b.parameters.consideration
      a.parameters.consideration hne
  · intro heq
    rw [hA]
    exact processOffer_length_fung 0 o i 1 0 b.parameters.consideration
      a.parameters.consideration heq
  · intro hne
    rw [hB]
    exact processOffer_length_nonfung 1 o2 i2 0 1 a.parameters.consideration
      b.parameters.consideration hne
  · intro heq
    rw [hB]
    exact processOffer_length_fung 1 o2 i2 0 1 a.parameters.consideration
      b.parameters.consideration heq

/-- Order offering one ERC721 item and asking nothing, for the C5
witness. -/
def w5A : Order := mkOrder [i721T5] []

/-- Order offering one ERC20 item and asking the (0xT, 5) item, for the
C5 witness. -/
def w5B : Order := mkOrder [iERC20U] [iConsT5a]

/-- C5 witness: the amended count rule evaluated on a concrete order
pair. -/
theorem spec2proof_C5_witness :
    offerRefCount (getFulFillmentArrByOrder w5A w5B) (0, 0) ≤ 1 ∧
    offerRefCount (getFulFillmentArrByOrder w5A w5B) (1, 0) =
      w5A.parameters.consideration.countP (fun c => isCand iERC20U c)
        + w5B.parameters.consideration.countP (fun c => isCand iERC20U c) := by
  have h := spec2proof_C5 w5A w5B 0 0 i721T5 iERC20U rfl rfl
  exact ⟨h.1 (by decide), h.2.2.2 rfl⟩

/-! ## Claim C10 -/

/-- C10: the candidate test of the matcher never consults the item type
of a consideration item. Rewriting the consideration items of both
orders in any way that preserves token and identifier, in particular
changing their item types arbitrarily, leaves the matcher output
unchanged; a candidate is characterized by token equality (plain
case-sensitive string equality) together with type 1 of the offer item
or numeric identifier equality, so an ERC721 offer item is matched to a
type-3 consideration item of equal token and identifier, while tokens
differing only in letter case do not match. -/
theorem spec2proof_C10 (a b a2 b2 : Order)
    (hoa : a2.parameters.offer = a.parameters.offer)
    (hob : b2.parameters.offer = b.parameters.offer)
    (hca : List.Forall₂ sameTokenId a.parameters.consideration a2.parameters.consideration)
    (hcb : List.Forall₂ sameTokenId b.parameters.consideration b2.parameters.consideration) :
    getFulFillmentArrByOrder a2 b2 = getFulFillmentArrByOrder a b ∧
    (∀ o c, isCand o c = true ↔
      (o.token = c.token ∧
        (o.itemType = 1 ∨ o.identifierOrCriteria = c.identifierOrCriteria))) ∧
    isCand i721T5 iConsT5b = true ∧
    isCand (mkItem 2 "0xAB" 5 1) (mkItem 2 "0xab" 5 1) = false := by
  refine ⟨?_, fun o c => isCand_eq_true_iff o c, by decide, by decide⟩
  rw [getFulFillmentArrByOrder, getFulFillmentArrByOrder, hoa, hob,
    loopOffers_congr 0 1 0 b.parameters.consideration b2.parameters.consideration
      a.parameters.consideration a2.parameters.consideration hcb hca
      a.parameters.offer 0,
    loopOffers_congr 1 0 1 a.parameters.consideration a2.parameters.consideration
      b.parameters.consideration b2.parameters.consideration hca hcb
      b.parameters.offer 0]

/-- Order like oSelfMatch but with the consideration item retyped to 5,
for the C10 witness. -/
def w10A2 : Order := mkOrder [i721T5] [⟨5, "0xT", 5, 1, 1, some "0xr3"⟩]

/-- C10 witness: retyping the consideration item of the first order
leaves the matcher output unchanged on a concrete pair. -/
theorem spec2proof_C10_witness :
    getFulFillmentArrByOrder w10A2 oTwoT5 = getFulFillmentArrByOrder oSelfMatch oTwoT5 :=
  (spec2proof_C10 oSelfMatch oTwoT5 w10A2 oTwoT5 rfl rfl
    (List.Forall₂.cons ⟨rfl, rfl⟩ List.Forall₂.nil)
    (List.Forall₂.cons ⟨rfl, rfl⟩ (List.Forall₂.cons ⟨rfl, rfl⟩ List.Forall₂.nil))).1

/-! ## Claim C7 -/

/-- ERC721 offer item of the first order in the C7 counterexample. -/
def c7i721 : Item := mkItem 2 "0xT" 5 1

/-- First consideration item (token 0xU) of the first order. -/
def c7iU0 : Item := ⟨1, "0xU", 0, 90, 90, some "0xseller"⟩

/-- Second consideration item (token 0xU) of the first order. -/
def c7iU1 : Item := ⟨1, "0xU", 0, 10, 10, some "0xroyalty"⟩

/-- Consideration item of the second order asking the (0xT, 5) item. -/
def c7iT5 : Item := ⟨2, "0xT", 5, 1, 1, some "0xbuyer"⟩

/-- The gap asset of the C7 counterexample. -/
def c7gap : Item := ⟨1, "0xU", 0, 5, 5, some "0xseller"⟩

/-- First order of the C7 counterexample: one ERC721 offer, two
consideration items. -/
def c7A : Order := mkOrder [c7i721] [c7iU0, c7iU1]

/-- Second order of the C7 counterexample: one ERC20 offer, one
consideration item. -/
def c7B : Order := mkOrder [mkItem 1 "0xU" 0 100] [c7iT5]

/-- The first order after matchOrders appended the gap asset. -/
def c7A2 : Order := mkOrder [c7i721] [c7iU0, c7iU1, c7gap]

/-- C7 counterexample. The claim states that the appended
consideration-side reference points at the appended gap item. The code
pushes the fixed reference (0, 1); when the first order already has two
consideration items the gap lands at index 2 while the new reference
names index 1, an ordinary pre-existing item. -/
theorem spec2proof_C7_counterexample :
    matchOrders c7A c7B (some c7gap) =
      .ok ⟨[c7A2, c7B],
        [⟨[⟨0, 0⟩], [⟨1, 0⟩]⟩,
         ⟨[⟨1, 0⟩], [⟨0, 0⟩, ⟨0, 1⟩]⟩,
         ⟨[⟨1, 0⟩], [⟨0, 1⟩]⟩]⟩ ∧
    c7A2.parameters.consideration.get? 2 = some c7gap ∧
    ¬ c7A2.parameters.consideration.get? 1 = some c7gap := by
  decide

/-- C7 amended: with a gap asset and at least two fulfillment entries,
matchOrders appends the fixed reference (0, 1) onto the consideration
side of the second entry, appends the gap item onto the consideration
list of the first order, and keeps the number of fulfillment entries
unchanged; the appended reference names the gap item exactly when the
first order originally had one consideration item. -/
theorem spec2proof_C7 (a b : Order) (gap : Item) (e0 e1 : FEntryArr) (rest : List FEntryArr)
    (h : getFulFillmentArrByOrder a b = e0 :: e1 :: rest) :
    matchOrders a b (some gap) =
      .ok ⟨[{ a with parameters :=
          { a.parameters with consideration := a.parameters.consideration ++ [gap] } }, b],
        getFulfillment (e0 :: (e1.1, e1.2 ++ [((0 : Nat), (1 : Nat))]) :: rest)⟩ ∧
    (getFulfillment (e0 :: (e1.1, e1.2 ++ [((0 : Nat), (1 : Nat))]) :: rest)).length =
      (getFulFillmentArrByOrder a b).length ∧
    (a.parameters.consideration.length = 1 →
      (a.parameters.consideration ++ [gap]).get? 1 = some gap) := by
  refine ⟨?_, ?_, ?_⟩
  · rw [matchOrders]
    simp only [h]
  · rw [h]
    simp [getFulfillment]
  · intro hl
    obtain ⟨x, hx⟩ := List.length_eq_one.mp hl
    rw [hx]
    rfl

/-- Gap item for the C7 witness. -/
def wGap : Item := mkItem 1 "0xU" 0 7

/-- C7 witness: the amended gap rule evaluated on a pair producing two
fulfillment entries. -/
theorem spec2proof_C7_witness :
    matchOrders oFungA oTwoU (some wGap) =
      .ok ⟨[{ oFungA with parameters :=
          { oFungA.parameters with
            consideration := oFungA.parameters.consideration ++ [wGap] } }, oTwoU],
        getFulfillment [([(0, 0)], [(1, 0)]), ([(0, 0)], [(1, 1), (0, 1)])]⟩ :=
  (spec2proof_C7 oFungA oTwoU wGap ([(0, 0)], [(1, 0)]) ([(0, 0)], [(1, 1)]) []
    (by decide)).1

/-! ## Claim C3 -/

/-- An ERC721WithCriteria offer item (type 4). -/
def c3Offer : Item := mkItem 4 "0xT" 99 1

/-- A Native consideration item. -/
def c3Cons : Item := ⟨0, AddressZero, 0, 5, 5, some "0xseller"⟩

/-- An order whose sole offer item has the criteria type 4. -/
def c3Order : Order := mkOrder [c3Offer] [c3Cons]

/-- C3: the claim (with the source comment above the eligibility check)
holds that only offers of type 1, 2 or 3 can be Basic, so a
criteria-typed offer order is Generic; the code reaches the basic path
for it because the else branch of the classification covers every
non-ERC20 offer type. On the failing input, an order offering one
type-4 item against a Native consideration item, the code selects the
basic entry point with route 1. -/
theorem spec2proof_C3 :
    fulfillOrder c3Order 5 0 =
      .ok (.fulfillBasicOrder (getBasicOrderParameters 1 c3Order none []) 5) ∧
    (getBasicOrderParameters 1 c3Order none []).basicOrderType = 4 ∧
    specRouteTable 4 0 = none := by
  decide

/-! ## Claim C4 -/

/-- An order offering a single Native item against a Native
consideration item. -/
def c4Order : Order :=
  mkOrder [mkItem 0 AddressZero 0 10] [⟨0, AddressZero, 0, 10, 10, some "0xseller"⟩]

/-- C4 counterexample. The claim states that whenever an order is
classified Basic, its route code is one of the six values determined by
the (offer type, consideration type) pair. An order offering Native
against Native is classified Basic by the code, yet its pair determines
no route in the six-entry table; the code still emits route 1 (so
basicOrderType 4). -/
theorem spec2proof_C4_counterexample :
    fulfillOrder c4Order 10 0 =
      .ok (.fulfillBasicOrder (getBasicOrderParameters 1 c4Order none []) 10) ∧
    specRouteTable 0 0 = none ∧
    (getBasicOrderParameters 1 c4Order none []).basicOrderType = 4 := by
  decide

/-- C4 amended: whenever an order whose sole offer item has type 1, 2 or
3 passes the eligibility check, the route is exactly the one the
six-entry table assigns to the (offer type, first consideration type)
pair, the basic entry point is selected with the packed record, and that
record carries basicOrderType equal to the order type plus four times
the route, the offer fields of the sole offer item, the consideration
fields of the first consideration item, and the remaining consideration
items flattened in order to (amount, recipient) pairs followed by the
supplied tips. -/
theorem spec2proof_C4 (ord : Order) (o0 c0 : Item) (crest : List Item) (v : Nat)
    (hoff : ord.parameters.offer = [o0])
    (hcn : ord.parameters.consideration = c0 :: crest)
    (hctr : counterTruthy ord.counter = false)
    (hnum : truthyNum ord.numerator = false)
    (hbasic : isBasicCheck o0 c0 crest = true)
    (hshape : o0.itemType = 1 ∨ o0.itemType = 2 ∨ o0.itemType = 3) :
    specRouteTable o0.itemType c0.itemType = some (basicRoute o0 c0) ∧
    fulfillOrder ord v 0 =
      .ok (.fulfillBasicOrder (getBasicOrderParameters (basicRoute o0 c0) ord none []) v) ∧
    (∀ (fk : Option String) (tips : List (Nat × Option String)),
      (getBasicOrderParameters (basicRoute o0 c0) ord fk tips).basicOrderType =
          ord.parameters.orderType + 4 * basicRoute o0 c0 ∧
      (getBasicOrderParameters (basicRoute o0 c0) ord fk tips).offerToken = o0.token ∧
      (getBasicOrderParameters (basicRoute o0 c0) ord fk tips).offerIdentifier =
          o0.identifierOrCriteria ∧
      (getBasicOrderParameters (basicRoute o0 c0) ord fk tips).offerAmount = o0.endAmount ∧
      (getBasicOrderParameters (basicRoute o0 c0) ord fk tips).considerationToken = c0.token ∧
      (getBasicOrderParameters (basicRoute o0 c0) ord fk tips).considerationIdentifier =
          c0.identifierOrCriteria ∧
      (getBasicOrderParameters (basicRoute o0 c0) ord fk tips).considerationAmount =
          c0.endAmount ∧
      (getBasicOrderParameters (basicRoute o0 c0) ord fk tips).additionalRecipients =
          crest.map (fun c => (c.endAmount, c.recipient)) ++ tips) := by
  refine ⟨?_, ?_, ?_⟩
  · rcases hshape with h1 | h2 | h3
    · rw [isBasicCheck, if_pos (by simp [h1])] at hbasic
      have hcn0 := (Bool.and_eq_true _ _).mp hbasic |>.1
      rcases (Bool.or_eq_true _ _).mp hcn0 with hc | hc
      · have hc2 : c0.itemType = 2 := by simpa using hc
        simp [specRouteTable, basicRoute, h1, hc2]
      · have hc3 : c0.itemType = 3 := by simpa using hc
        simp [specRouteTable, basicRoute, h1, hc3]
    · rw [isBasicCheck, if_neg (by simp [h2])] at hbasic
      have hcn0 := (Bool.and_eq_true _ _).mp hbasic |>.1
      rcases (Bool.or_eq_true _ _).mp hcn0 with hc | hc
      · have hc0 : c0.itemType = 0 := by simpa using hc
        simp [specRouteTable, basicRoute, h2, hc0]
      · have hc1 : c0.itemType = 1 := by simpa using hc
        simp [specRouteTable, basicRoute, h2, hc1]
    · rw [isBasicCheck, if_neg (by simp [h3])] at hbasic
      have hcn0 := (Bool.and_eq_true _ _).mp hbasic |>.1
      rcases (Bool.or_eq_true _ _).mp hcn0 with hc | hc
      · have hc0 : c0.itemType = 0 := by simpa using hc
        simp [specRouteTable, basicRoute, h3, hc0]
      · have hc1 : c0.itemType = 1 := by simpa using hc
        simp [specRouteTable, basicRoute, h3, hc1]
  · rw [fulfillOrder, if_neg (by simp [hctr]), if_neg (by simp [hnum]), hcn, hoff]
    simp only [hbasic, if_true]
  · intro fk tips
    refine ⟨?_, ?_, ?_, ?_, ?_, ?_, ?_, ?_⟩ <;>
      simp [getBasicOrderParameters, hoff, hcn]

/-- Order for the C4 witness: one ERC20 offer item, an ERC721 first
consideration item and an ERC20 fee leg. -/
def c4w : Order :=
  mkOrder [mkItem 1 "0xU" 0 100]
    [⟨2, "0xT", 5, 1, 1, some "0xseller"⟩, ⟨1, "0xU", 0, 3, 3, some "0xfee"⟩]

/-- C4 witness: the amended route and packing rule evaluated on a
concrete basic-eligible order. -/
theorem spec2proof_C4_witness :
    specRouteTable 1 2 = some 4 ∧
    fulfillOrder c4w 100 0 =
      .ok (.fulfillBasicOrder (getBasicOrderParameters 4 c4w none []) 100) := by
  have h := spec2proof_C4 c4w (mkItem 1 "0xU" 0 100) ⟨2, "0xT", 5, 1, 1, some "0xseller"⟩
    [⟨1, "0xU", 0, 3, 3, some "0xfee"⟩] 100 rfl rfl rfl rfl (by decide) (Or.inl rfl)
  exact ⟨h.1, h.2.1⟩

/-! ## Claim C2 -/

/-- A chain state for the C2 evaluation: no allowances, no approve-all
flags, but the per-id approved address of every ERC721 read is the
exchange address in upper case, and every ERC1155 approve-all read is
true. -/
def c2Chain : ChainState :=
  ⟨fun _ _ _ => 0, fun _ _ _ => false, fun _ _ => "0xEXCHANGE", fun _ _ _ => true⟩

/-- The asset of the C2 evaluation at a given type code. -/
def c2Asset (t : Nat) : Asset := ⟨t, "0xtok", 7⟩

/-- C2: the claim (and the source comments on the switch labels) hold
that criteria items are treated like their concrete counterparts by the
approval oracle. Because the switch labels (case 2 || 4) and
(case 3 || 5) evaluate to the single values 2 and 3, the code throws for
the types 4 and 5 on the very chain state for which the concrete types 2
and 3 return true (the type-2 result also shows the case-insensitive
comparison of the per-id approved address). -/
theorem spec2proof_C2 :
    getApprovalStatus "0xwallet" "0xexchange" (c2Asset 4) c2Chain =
      .error ("Unexpected itemType: 4") ∧
    getApprovalStatus "0xwallet" "0xexchange" (c2Asset 5) c2Chain =
      .error ("Unexpected itemType: 5") ∧
    getApprovalStatus "0xwallet" "0xexchange" (c2Asset 2) c2Chain = .ok true ∧
    getApprovalStatus "0xwallet" "0xexchange" (c2Asset 3) c2Chain = .ok true := by
  refine ⟨rfl, rfl, ?_, rfl⟩
  decide

/-! ## Claim C8 -/

/-- C8: a payload bearing a counter field is an Order Components value,
and in this SDK its counter is a BigNumber object, truthy even when it
holds zero, so the truthiness guards act on presence of the field. Any
payload with a present counter — whatever value it holds, zero included
— makes fulfillOrder raise the payload-kind mismatch error and makes
validateOrders raise it for any array containing the payload, with no
settlement call in either case; and any payload lacking the counter
field (an Order) makes cancelOrders raise its mismatch error for any
array containing it, again with no settlement call. -/
theorem spec2proof_C8 (oc od : Order) (v n k : Nat) (arr arr2 : List Order)
    (hc : oc.counter = some k) (hd : od.counter = none)
    (hmem : oc ∈ arr) (hmem2 : od ∈ arr2) :
    fulfillOrder oc v n = .error ("Not orderComponents, give me order") ∧
    validateOrders arr = .error ("Not orderComponents, give me order") ∧
    cancelOrders arr2 = .error ("Not order, Give me orderComponents") := by
  refine ⟨?_, ?_, ?_⟩
  · rw [fulfillOrder, if_pos (by simp [counterTruthy, hc])]
  · rw [validateOrders, if_pos ?_]
    exact List.any_eq_true.mpr ⟨oc, hmem, by simp [counterTruthy, hc]⟩
  · rw [cancelOrders, if_pos ?_]
    exact List.any_eq_true.mpr ⟨od, hmem2, by simp [counterTruthy, hd]⟩

/-- C8 witness: the guards evaluated on a components payload whose
counter is exactly zero and on a genuine order. -/
theorem spec2proof_C8_witness :
    fulfillOrder (mkComponents [i721T5] [iConsT5a] 0) 1 0 =
      .error ("Not orderComponents, give me order") ∧
    validateOrders [mkComponents [i721T5] [iConsT5a] 0] =
      .error ("Not orderComponents, give me order") ∧
    cancelOrders [mkOrder [i721T5] [iConsT5a]] =
      .error ("Not order, Give me orderComponents") :=
  spec2proof_C8 (mkComponents [i721T5] [iConsT5a] 0) (mkOrder [i721T5] [iConsT5a]) 1 0 0
    [mkComponents [i721T5] [iConsT5a] 0] [mkOrder [i721T5] [iConsT5a]]
    rfl rfl (by decide) (by decide)

/-! ## Claim C9 -/

/-- C9 counterexample. The claim states that amounts default to zero,
that endAmount defaults to startAmount, and that an item-type code
outside the six variants fails with an InvalidItemType error. In the
code both amounts default to one, an omitted endAmount stays one even
when startAmount is five, and getItem returns undefined (no item, no
error) for the code 6. -/
theorem spec2proof_C9_counterexample :
    (getOfferOrConsiderationItem none none none none none none).startAmount = 1 ∧
    ¬ (getOfferOrConsiderationItem none none none none none none).startAmount = 0 ∧
    (getOfferOrConsiderationItem (some 1) (some "0xtok") none (some 5) none none).endAmount = 1 ∧
    ¬ (getOfferOrConsiderationItem (some 1) (some "0xtok") none (some 5) none
        none).endAmount = 5 ∧
    getItem ⟨6, "0xtok", some 1, some 1, 0, none, 0⟩ = .ok none := by
  decide

/-- C9 amended: the pure constructor defaults are item type 0, the zero
address, identifier 0 and both amounts 1 (endAmount does not track a
supplied startAmount there); in the getItem facade an omitted endAmount
does default to the startAmount through the per-type helpers and the
ERC1155 amounts default to 1; and an item-type code outside the six
recognized variants makes getItem return no item while raising no
error. -/
theorem spec2proof_C9 (asset : AssetSpec) (tok : String) (recipient : Option String) (s : Nat)
    (h : ¬ asset.itemType < 6) :
    getItem asset = .ok none ∧
    (getOfferOrConsiderationItem none none none none none recipient).itemType = 0 ∧
    (getOfferOrConsiderationItem none none none none none recipient).token = AddressZero ∧
    (getOfferOrConsiderationItem none none none none none recipient).identifierOrCriteria = 0 ∧
    (getOfferOrConsiderationItem none none none none none recipient).startAmount = 1 ∧
    (getOfferOrConsiderationItem none none none none none recipient).endAmount = 1 ∧
    (getItemETH s none recipient).endAmount = parseEther s ∧
    (getItem1155 tok 7 none none recipient).startAmount = 1 ∧
    (getItem1155 tok 7 (some s) none recipient).endAmount = s := by
  obtain ⟨t, tk, sa, ea, tid, rec, rt⟩ := asset
  simp only at h
  obtain ⟨k, rfl⟩ : ∃ k, t = k + 6 := ⟨t - 6, by omega⟩
  exact ⟨rfl, rfl, rfl, rfl, rfl, rfl, rfl, rfl, rfl⟩

/-- C9 witness: the amended rule evaluated at the type code 7. -/
theorem spec2proof_C9_witness :
    getItem ⟨7, "0xtok", some 1, some 1, 0, none, 0⟩ = .ok none :=
  (spec2proof_C9 ⟨7, "0xtok", some 1, some 1, 0, none, 0⟩ "0xtok" none 1 (by decide)).1

end Seaport
